import Mathlib

/-!
Shallow embedding of the `pergamenum/go-utils-firestore` repository:
the plain accessor (`package cruds`, file `cruds.go`) and the rich,
timestamped accessor (`package dao`).  Backend (Firestore client)
responses are passed in explicitly; each accessor method is embedded as
a pure function from its inputs and the backend's responses to its
returned value together with the trace of backend calls it issues.
-/

/-- gRPC status codes, as classified by `status.Code(err)`. -/
inductive StatusCode where
  | ok
  | alreadyExists
  | notFound
  | failedPrecondition
  | unknown
  | other (n : Nat)
deriving DecidableEq, Repr

/-- The error kinds of `go-consensus-standards/ehandler` used by the rich
variant (`e.ErrConflict`, `e.ErrNotFound`, `e.ErrCorrupt`, `e.ErrBadRequest`). -/
inductive EKind where
  | errConflict
  | errNotFound
  | errCorrupt
  | errBadRequest
deriving DecidableEq, Repr

/-- A Go `error` value as it matters to this repository:
gRPC errors produced by the backend client, deserialization (`DataTo`)
failures, the four sentinel errors of `package cruds`, and wrapped
errors `e.Wrap(cause, kind)` of the rich variant. -/
inductive GoErr where
  | grpc (code : StatusCode) (msg : String)
  | deser (msg : String)
  | errDocumentNotFound
  | errDocumentAlreadyExists
  | errDocumentSkipped
  | errQueryNotSupported
  | wrap (cause : String) (kind : EKind)
deriving DecidableEq, Repr

/-- `status.Code(err)`: the code of a gRPC status error, `Unknown` for any
other non-nil error. -/
def statusCode : GoErr → StatusCode
  | .grpc code _ => code
  | _ => .unknown

/-- An error produced by the backend client itself (a gRPC status error),
as opposed to one of this repository's own sentinel or wrapped values. -/
def isBackendErr : GoErr → Prop
  | .grpc _ _ => True
  | _ => False

instance (e : GoErr) : Decidable (isBackendErr e) := by
  cases e <;> simp [isBackendErr] <;> infer_instance

/-- A value stored in a Firestore update instruction (`any` in Go):
either a `time.Time` instant or some other caller-supplied value. -/
inductive FValue where
  | time (t : Nat)
  | val (v : Nat)
deriving DecidableEq, Repr

/-- `firestore.Update`: one per-field update instruction. -/
structure FirestoreUpdate where
  Path : String
  Value : FValue
deriving DecidableEq, Repr

/-- A backend call issued by an accessor method, recorded as a trace
element: `DocumentRef.Create` with the payload handed to it, or
`DocumentRef.Update` with its instruction list. -/
inductive Call (D : Type) where
  | create (id : String) (doc : D)
  | update (id : String) (fus : List FirestoreUpdate)
deriving DecidableEq, Repr

deriving instance DecidableEq for Except

/-- `firestore.DocumentSnapshot`, reduced to what the repository reads
from it: the existence flag (`Exists()`) and the result of deserializing
its payload into the document shape (`DataTo`). -/
structure Snapshot (D : Type) where
  Exists : Bool
  dataTo : Except String D
deriving DecidableEq, Repr

/-- The pair returned by `DocumentRef.Get`: a possibly-nil snapshot
pointer and a possibly-nil error. -/
structure GetResult (D : Type) where
  snapshot : Option (Snapshot D)
  err : Option GoErr
deriving DecidableEq, Repr

/-- The pair returned by `Query.Documents(ctx).GetAll()`: on failure a
non-nil error, on success the list of matching snapshots. -/
structure SearchBackend (D : Type) where
  err : Option GoErr
  snapshots : List (Snapshot D)
deriving DecidableEq, Repr

/-- `cruds.Query`: one search predicate of the plain variant. -/
structure Query where
  Path : String
  Operator : String
  Value : FValue
deriving DecidableEq, Repr

/-- `types.Query` of `go-consensus-standards`: one search predicate of
the rich variant (field named `Key` rather than `Path`). -/
structure TQuery where
  Key : String
  Operator : String
  Value : FValue
deriving DecidableEq, Repr

/-- `types.Update` of `go-consensus-standards`: the field-path → value
mapping (`map[string]any`), embedded as an association list whose order
stands for one iteration order of the Go map. -/
def TUpdate : Type := List (String × FValue)

/-- One `collection.Where`/`query.Where` filter handed to the backend
query builder: (field path, operator string, value). -/
structure WhereFilter where
  path : String
  op : String
  value : FValue
deriving DecidableEq, Repr

/-- Go's `strings.ToUpper` on the relevant (ASCII) inputs: upper-case
every character. -/
def goToUpper (s : String) : String := ⟨s.data.map Char.toUpper⟩

/-- `dao.fro` ("Firestore Relational Operator"): translates an operator
token, upper-cased, into Firestore's native operator string, or the
sentinel "UNKNOWN". -/
def fro (input : String) : String :=
  match goToUpper input with
  | "EQ" => "=="
  | "NE" => "!="
  | "LT" => "<"
  | "GT" => ">"
  | "LE" => "<="
  | "GE" => ">="
  | _ => "UNKNOWN"

/-- The single-quote character, spelled via its code point so that the
Go format strings below can be reproduced verbatim. -/
def squote : String := String.singleton (Char.ofNat 39)

/-- `squote ++ s ++ squote`: a string in single quotes, as `fmt.Sprintf` with a
quoted `%s` verb produces. -/
def quoted (s : String) : String := squote ++ s ++ squote

/-! ### Create -/

/-- `CRUDS.Create` (plain variant): calls the backend's create-if-absent
primitive with the caller's document; an `AlreadyExists` status becomes
the `ErrDocumentAlreadyExists` sentinel, any other error is returned
unchanged.  `createErr` is the backend's response to the create call.
Returns the method's error result and the trace of backend calls. -/
def CRUDS.Create {D : Type} (id : String) (document : D)
    (createErr : Option GoErr) : Option GoErr × List (Call D) :=
  match createErr with
  | some err =>
    if statusCode err = StatusCode.alreadyExists then
      (some GoErr.errDocumentAlreadyExists, [Call.create id document])
    else
      (some err, [Call.create id document])
  | none => (none, [Call.create id document])

/-- `DAO.Create` (rich, timestamped variant): captures `now := time.Now()`
at entry, calls create-if-absent, and on success issues one follow-up
`Update` with the two instructions `created = now` and `updated = now`.
An `AlreadyExists` status becomes `e.Wrap("(document 'id' already
exists)", e.ErrConflict)`; other create errors, and any follow-up error,
are returned unchanged. -/
def DAO.Create {D : Type} (id : String) (document : D) (now : Nat)
    (createErr updateErr : Option GoErr) : Option GoErr × List (Call D) :=
  match createErr with
  | some err =>
    if statusCode err = StatusCode.alreadyExists then
      (some (GoErr.wrap ("(document " ++ quoted id ++ " already exists)")
          EKind.errConflict),
        [Call.create id document])
    else
      (some err, [Call.create id document])
  | none =>
    let fus : List FirestoreUpdate :=
      [⟨"created", FValue.time now⟩, ⟨"updated", FValue.time now⟩]
    match updateErr with
    | some err => (some err, [Call.create id document, Call.update id fus])
    | none => (none, [Call.create id document, Call.update id fus])

/-! ### Read -/

/-- `CRUDS.Read` (plain variant), applied to the pair `DocumentRef.Get`
returned.  On a non-nil error it first asks `snapshot.Exists()`; a
missing snapshot yields the `ErrDocumentNotFound` sentinel, otherwise
the error passes through.  On success it deserializes; a `DataTo`
failure is returned raw.  The outer `none` marks a nil-pointer
dereference (the snapshot pointer was nil when a method was called on
it). -/
def CRUDS.Read {D : Type} (empty : D) (r : GetResult D) :
    Option (D × Option GoErr) :=
  match r.err with
  | some err =>
    match r.snapshot with
    | none => none
    | some s =>
      if !s.Exists then some (empty, some GoErr.errDocumentNotFound)
      else some (empty, some err)
  | none =>
    match r.snapshot with
    | none => none
    | some s =>
      match s.dataTo with
      | Except.error msg => some (empty, some (GoErr.deser msg))
      | Except.ok d => some (d, none)

/-- `DAO.Read` (rich variant): as `CRUDS.Read`, but a missing snapshot
yields `e.Wrap("(ID: id)", e.ErrNotFound)` and a `DataTo` failure yields
`e.Wrap("(firestore serialization failed: msg)", e.ErrCorrupt)`. -/
def DAO.Read {D : Type} (empty : D) (id : String) (r : GetResult D) :
    Option (D × Option GoErr) :=
  match r.err with
  | some err =>
    match r.snapshot with
    | none => none
    | some s =>
      if !s.Exists then
        some (empty,
          some (GoErr.wrap ("(ID: " ++ id ++ ")") EKind.errNotFound))
      else some (empty, some err)
  | none =>
    match r.snapshot with
    | none => none
    | some s =>
      match s.dataTo with
      | Except.error msg =>
        some (empty,
          some (GoErr.wrap ("(firestore serialization failed: " ++ msg ++ ")")
            EKind.errCorrupt))
      | Except.ok d => some (d, none)

/-! ### Update -/

/-- `CRUDS.Update` (plain variant): issues one backend update call with
the caller-supplied instruction list and returns the backend's error, if
any, unchanged. -/
def CRUDS.Update {D : Type} (id : String) (updates : List FirestoreUpdate)
    (backendErr : Option GoErr) : Option GoErr × List (Call D) :=
  match backendErr with
  | some err => (some err, [Call.update id updates])
  | none => (none, [Call.update id updates])

/-- `DAO.fromUpdate`: translates the field-path → value mapping into the
backend's per-field instruction list, one instruction per pair. -/
def DAO.fromUpdate (input : TUpdate) : List FirestoreUpdate :=
  input.map (fun kv => ⟨kv.1, kv.2⟩)

/-- `DAO.Update` (rich variant): translates the mapping via
`DAO.fromUpdate`, appends one `updated = time.Now()` instruction, issues
a single backend update call, and returns the backend's error, if any,
unchanged. -/
def DAO.Update {D : Type} (id : String) (update : TUpdate) (now : Nat)
    (backendErr : Option GoErr) : Option GoErr × List (Call D) :=
  let fus := DAO.fromUpdate update ++ [⟨"updated", FValue.time now⟩]
  match backendErr with
  | some err => (some err, [Call.update id fus])
  | none => (none, [Call.update id fus])

/-! ### Search -/

/-- The deserialization loop of `CRUDS.Search`: `err` is reassigned by
every `s.DataTo(&d)`, set to `ErrDocumentSkipped` on a failure, and the
loop's final `err` value is what the method returns. -/
def CRUDS.deserLoop {D : Type} (snaps : List (Snapshot D)) (ds : List D)
    (err : Option GoErr) : List D × Option GoErr :=
  match snaps with
  | [] => (ds, err)
  | s :: rest =>
    match s.dataTo with
    | Except.error _ => CRUDS.deserLoop rest ds (some GoErr.errDocumentSkipped)
    | Except.ok d => CRUDS.deserLoop rest (ds ++ [d]) none

/-- `CRUDS.Search` (plain variant): with no predicates fetches the whole
collection, otherwise chains one `Where(q.Path, q.Operator, q.Value)`
filter per predicate (the operator passed verbatim) and runs the query;
a `FailedPrecondition` status on the filtered query becomes the
`ErrQueryNotSupported` sentinel, other errors pass through.  On success
each snapshot is deserialized by `CRUDS.deserLoop`.  Returns the result
slice, the returned error, and the filters handed to the query builder. -/
def CRUDS.Search {D : Type} (queries : List Query) (b : SearchBackend D) :
    List D × Option GoErr × List WhereFilter :=
  if queries.isEmpty then
    match b.err with
    | some err => ([], some err, [])
    | none =>
      let (ds, err) := CRUDS.deserLoop b.snapshots [] none
      (ds, err, [])
  else
    let filters := queries.map (fun q => ⟨q.Path, q.Operator, q.Value⟩)
    match b.err with
    | some err =>
      if statusCode err = StatusCode.failedPrecondition then
        ([], some GoErr.errQueryNotSupported, filters)
      else
        ([], some err, filters)
    | none =>
      let (ds, err) := CRUDS.deserLoop b.snapshots [] none
      (ds, err, filters)

/-- The deserialization loop of `DAO.Search`: a failing snapshot is
logged as a wrapped `ErrCorrupt` and skipped, a succeeding one is
appended; the loop never produces an error.  Returns the result slice
and the list of logged notices. -/
def DAO.deserLoop {D : Type} (snaps : List (Snapshot D)) :
    List D × List GoErr :=
  match snaps with
  | [] => ([], [])
  | s :: rest =>
    let (ds, logged) := DAO.deserLoop rest
    match s.dataTo with
    | Except.error msg =>
      (ds,
        GoErr.wrap ("(firestore serialization failed: " ++ msg ++ ")")
          EKind.errCorrupt :: logged)
    | Except.ok d => (d :: ds, logged)

/-- The `cause` string of `DAO.Search`'s BadRequest wrap, written in the
source as `(query not supported: combining [==] with [!= <, <=, >, >=])`
with the bracketed tokens in single quotes. -/
def daoQueryNotSupportedCause : String :=
  "(query not supported: combining " ++ quoted "==" ++ " with " ++
    quoted "!= <, <=, >, >=" ++ ")"

/-- `DAO.Search` (rich variant): as `CRUDS.Search`, but every
predicate's operator is translated by `fro` before it reaches the query
builder, a `FailedPrecondition` status becomes
`e.Wrap(daoQueryNotSupportedCause, e.ErrBadRequest)`, and corrupt
snapshots are logged (fourth component) rather than reflected in the
returned error. -/
def DAO.Search {D : Type} (queries : List TQuery) (b : SearchBackend D) :
    List D × Option GoErr × List WhereFilter × List GoErr :=
  if queries.isEmpty then
    match b.err with
    | some err => ([], some err, [], [])
    | none =>
      let (ds, logged) := DAO.deserLoop b.snapshots
      (ds, none, [], logged)
  else
    let filters := queries.map (fun q => ⟨q.Key, fro q.Operator, q.Value⟩)
    match b.err with
    | some err =>
      if statusCode err = StatusCode.failedPrecondition then
        ([], some (GoErr.wrap daoQueryNotSupportedCause EKind.errBadRequest),
          filters, [])
      else
        ([], some err, filters, [])
    | none =>
      let (ds, logged) := DAO.deserLoop b.snapshots
      (ds, none, filters, logged)

/-- Whether an error value is the Corrupt kind of the normalized
taxonomy: `e.Wrap(_, e.ErrCorrupt)`. -/
def isCorruptErr : GoErr → Bool
  | .wrap _ .errCorrupt => true
  | _ => false

/-- Whether an error value is the NotFound kind of either variant:
the plain sentinel `ErrDocumentNotFound` or `e.Wrap(_, e.ErrNotFound)`. -/
def isNotFoundErr : GoErr → Bool
  | .errDocumentNotFound => true
  | .wrap _ .errNotFound => true
  | _ => false

/-! ### Theorems -/

/-- C2: for every input string whose upper-cased form is one of EQ, NE,
LT, GT, LE, GE, `fro` returns Firestore's corresponding native operator
token; every other input yields the sentinel "UNKNOWN" (no local error);
and `DAO.Search` applies `fro` to each predicate's operator before
handing the filter to the backend query builder. -/
theorem fro_translates_operator_tokens (s : String) :
    (goToUpper s = "EQ" → fro s = "==") ∧
    (goToUpper s = "NE" → fro s = "!=") ∧
    (goToUpper s = "LT" → fro s = "<") ∧
    (goToUpper s = "GT" → fro s = ">") ∧
    (goToUpper s = "LE" → fro s = "<=") ∧
    (goToUpper s = "GE" → fro s = ">=") ∧
    (goToUpper s ∉ (["EQ", "NE", "LT", "GT", "LE", "GE"] : List String) →
      fro s = "UNKNOWN") ∧
    (∀ (D : Type) (queries : List TQuery) (b : SearchBackend D),
      queries ≠ [] →
      (DAO.Search queries b).2.2.1 =
        queries.map (fun q => ⟨q.Key, fro q.Operator, q.Value⟩)) := by
  refine ⟨fun h => ?_, fun h => ?_, fun h => ?_, fun h => ?_, fun h => ?_,
    fun h => ?_, fun h => ?_, ?_⟩
  · unfold fro; rw [h]; decide
  · unfold fro; rw [h]; decide
  · unfold fro; rw [h]; decide
  · unfold fro; rw [h]; decide
  · unfold fro; rw [h]; decide
  · unfold fro; rw [h]; decide
  · unfold fro
    split <;> simp_all
  · intro D queries b hq
    unfold DAO.Search
    rw [if_neg (by simpa using hq)]
    cases hbe : b.err with
    | none => rfl
    | some e =>
      by_cases hc : statusCode e = StatusCode.failedPrecondition
      · simp [hc]
      · simp [hc]

/-- C2 witness: the translator at concrete inputs of each shape, and the
translated filter list of a one-predicate search. -/
theorem fro_translates_operator_tokens_witness :
    fro ("eQ") = "==" ∧ fro ("Ge") = ">=" ∧ fro ("banana") = "UNKNOWN" ∧
    (DAO.Search (D := Nat) [⟨"f", "lt", FValue.val 0⟩]
        ⟨none, []⟩).2.2.1 = [⟨"f", "<", FValue.val 0⟩] := by
  have hlt : fro ("lt") = "<" :=
    (fro_translates_operator_tokens ("lt")).2.2.1 (by decide)
  refine ⟨(fro_translates_operator_tokens ("eQ")).1 (by decide),
    (fro_translates_operator_tokens ("Ge")).2.2.2.2.2.1 (by decide),
    (fro_translates_operator_tokens ("banana")).2.2.2.2.2.2.1 (by decide),
    ?_⟩
  have h := (fro_translates_operator_tokens
      ("lt")).2.2.2.2.2.2.2 Nat [⟨"f", "lt", FValue.val 0⟩] ⟨none, []⟩
      (by simp)
  rw [h]
  simp [hlt]

/-- C1: evaluation of both Search variants on a backend batch holding
one corrupt and one valid snapshot.  The rich variant returns the valid
document, a nil error, and exactly one logged Corrupt notice, in either
order of the batch.  The plain variant loses the `ErrDocumentSkipped`
notice when the corrupt snapshot is not last: `err` is overwritten by
the next iteration's `s.DataTo(&d)` result, so the call returns the
valid document with a nil error; only with the corrupt snapshot last is
the sentinel returned. -/
theorem search_skipped_notice_depends_on_position :
    CRUDS.Search (D := Nat) []
        ⟨none, [⟨true, Except.error "bad"⟩, ⟨true, Except.ok 7⟩]⟩ =
      ([7], none, []) ∧
    CRUDS.Search (D := Nat) []
        ⟨none, [⟨true, Except.ok 7⟩, ⟨true, Except.error "bad"⟩]⟩ =
      ([7], some GoErr.errDocumentSkipped, []) ∧
    DAO.Search (D := Nat) []
        ⟨none, [⟨true, Except.error "bad"⟩, ⟨true, Except.ok 7⟩]⟩ =
      ([7], none, [],
        [GoErr.wrap "(firestore serialization failed: bad)"
          EKind.errCorrupt]) ∧
    DAO.Search (D := Nat) []
        ⟨none, [⟨true, Except.ok 7⟩, ⟨true, Except.error "bad"⟩]⟩ =
      ([7], none, [],
        [GoErr.wrap "(firestore serialization failed: bad)"
          EKind.errCorrupt]) := by
  decide

/-- C3 counterexample: in the plain variant, Read of an existing snapshot
whose deserialization fails returns the raw deserialization error, which
is not the Corrupt kind of the normalized taxonomy. -/
theorem cruds_read_corrupt_is_raw :
    CRUDS.Read (D := Nat) 0 ⟨some ⟨true, Except.error "boom"⟩, none⟩ =
      some (0, some (GoErr.deser "boom")) ∧
    isCorruptErr (GoErr.deser "boom") = false := by
  decide

/-- C3 amended: when the backend returns an existing snapshot whose
deserialization fails, the rich variant's Read returns a Corrupt-wrapped
error carrying the underlying deserialization error text, and the plain
variant returns the raw deserialization error unnormalized; both return
the zero/empty Document value. -/
theorem read_corrupt_snapshot (D : Type) (empty : D) (id msg : String)
    (s : Snapshot D) (hex : s.Exists = true)
    (hdt : s.dataTo = Except.error msg) :
    DAO.Read empty id ⟨some s, none⟩ =
      some (empty,
        some (GoErr.wrap ("(firestore serialization failed: " ++ msg ++ ")")
          EKind.errCorrupt)) ∧
    CRUDS.Read empty ⟨some s, none⟩ =
      some (empty, some (GoErr.deser msg)) := by
  unfold DAO.Read CRUDS.Read
  simp [hdt]

/-- C3 witness: the amended theorem at a concrete corrupt snapshot. -/
theorem read_corrupt_snapshot_witness :
    ((⟨true, Except.error "boom"⟩ : Snapshot Nat).Exists = true ∧
      (⟨true, Except.error "boom"⟩ : Snapshot Nat).dataTo =
        Except.error "boom") ∧
    DAO.Read 0 "k" ⟨some ⟨true, Except.error "boom"⟩, none⟩ =
      some (0,
        some (GoErr.wrap ("(firestore serialization failed: " ++ "boom" ++ ")")
          EKind.errCorrupt)) ∧
    CRUDS.Read 0 ⟨some ⟨true, Except.error "boom"⟩, none⟩ =
      some (0, some (GoErr.deser "boom")) :=
  ⟨⟨rfl, rfl⟩, read_corrupt_snapshot Nat 0 "k" "boom"
    ⟨true, Except.error "boom"⟩ rfl rfl⟩

/-- C4: in the timestamped variant, after a successful backend create the
method issues exactly one follow-up update as a separate second call,
holding exactly the two instructions `created = now` and `updated = now`
with the one timestamp captured at entry; the method's error result is
exactly the follow-up call's error, so a failing follow-up surfaces even
though the create already happened. -/
theorem dao_create_issues_timestamp_followup (D : Type) (id : String)
    (document : D) (now : Nat) (updateErr : Option GoErr) :
    (DAO.Create id document now none updateErr).2 =
      [Call.create id document,
        Call.update id
          [⟨"created", FValue.time now⟩, ⟨"updated", FValue.time now⟩]] ∧
    (DAO.Create id document now none updateErr).1 = updateErr := by
  cases updateErr <;> exact ⟨rfl, rfl⟩

/-- C5: in the timestamped variant, Update translates the mapping into
one backend instruction per (field path, value) pair, appends one
`updated = now` instruction, and issues exactly one backend update call;
with the empty mapping the instruction list is just the `updated`
instruction and the call succeeds whenever the backend call does. -/
theorem dao_update_appends_updated_timestamp (D : Type) (id : String)
    (update : TUpdate) (now : Nat) (backendErr : Option GoErr) :
    (DAO.Update (D := D) id update now backendErr).2 =
      [Call.update id
        (update.map (fun kv => ⟨kv.1, kv.2⟩) ++
          [⟨"updated", FValue.time now⟩])] ∧
    (DAO.fromUpdate update).length = update.length ∧
    (DAO.Update (D := D) id update now backendErr).1 = backendErr ∧
    (update = [] →
      (DAO.Update (D := D) id update now backendErr).2 =
        [Call.update id [⟨"updated", FValue.time now⟩]]) := by
  refine ⟨?_, ?_, ?_, ?_⟩
  · cases backendErr <;> rfl
  · simp [DAO.fromUpdate]
  · cases backendErr <;> rfl
  · intro h
    subst h
    cases backendErr <;> rfl

/-- C5 witness: the theorem at a one-pair mapping and at the empty
mapping, with a succeeding backend. -/
theorem dao_update_appends_updated_timestamp_witness :
    (DAO.Update (D := Nat) "k" [("a", FValue.val 3)] 5 none).2 =
      [Call.update "k"
        [⟨"a", FValue.val 3⟩, ⟨"updated", FValue.time 5⟩]] ∧
    (DAO.Update (D := Nat) "k" ([] : TUpdate) 5 none).2 =
      [Call.update "k" [⟨"updated", FValue.time 5⟩]] ∧
    (DAO.Update (D := Nat) "k" ([] : TUpdate) 5 none).1 = none :=
  ⟨(dao_update_appends_updated_timestamp Nat "k" [("a", FValue.val 3)]
      5 none).1,
    (dao_update_appends_updated_timestamp Nat "k" ([] : TUpdate)
      5 none).2.2.2 rfl,
    (dao_update_appends_updated_timestamp Nat "k" ([] : TUpdate)
      5 none).2.2.1⟩

/-- C6: on a non-empty predicate list, when the filtered query fails with
the backend's FailedPrecondition status, both Search variants return the
BadRequest kind — `e.Wrap(cause, e.ErrBadRequest)` in the rich variant,
the `ErrQueryNotSupported` sentinel in the plain one — with an empty
result; any other backend query error is propagated unnormalized, also
with an empty result. -/
theorem search_failed_precondition_is_bad_request (D : Type)
    (queries : List Query) (tqueries : List TQuery) (b : SearchBackend D)
    (e : GoErr) (hq : queries ≠ []) (htq : tqueries ≠ [])
    (herr : b.err = some e) :
    (statusCode e = StatusCode.failedPrecondition →
      (CRUDS.Search queries b).1 = [] ∧
      (CRUDS.Search queries b).2.1 = some GoErr.errQueryNotSupported ∧
      (DAO.Search tqueries b).1 = [] ∧
      (DAO.Search tqueries b).2.1 =
        some (GoErr.wrap daoQueryNotSupportedCause EKind.errBadRequest)) ∧
    (statusCode e ≠ StatusCode.failedPrecondition →
      (CRUDS.Search queries b).1 = [] ∧
      (CRUDS.Search queries b).2.1 = some e ∧
      (DAO.Search tqueries b).1 = [] ∧
      (DAO.Search tqueries b).2.1 = some e) := by
  constructor <;> intro hc <;>
    refine ⟨?_, ?_, ?_, ?_⟩ <;>
    · first
      | (unfold CRUDS.Search
         rw [if_neg (by simpa using hq)]
         simp [herr, hc])
      | (unfold DAO.Search
         rw [if_neg (by simpa using htq)]
         simp [herr, hc])

/-- C6 witness: a one-predicate search against a FailedPrecondition
response, and against an unrelated backend error. -/
theorem search_failed_precondition_is_bad_request_witness :
    (CRUDS.Search (D := Nat) [⟨"a", "==", FValue.val 0⟩]
        ⟨some (GoErr.grpc StatusCode.failedPrecondition "fp"), []⟩).2.1 =
      some GoErr.errQueryNotSupported ∧
    (DAO.Search (D := Nat) [⟨"a", "EQ", FValue.val 0⟩]
        ⟨some (GoErr.grpc StatusCode.failedPrecondition "fp"), []⟩).2.1 =
      some (GoErr.wrap daoQueryNotSupportedCause EKind.errBadRequest) ∧
    (CRUDS.Search (D := Nat) [⟨"a", "==", FValue.val 0⟩]
        ⟨some (GoErr.grpc StatusCode.unknown "down"), []⟩).2.1 =
      some (GoErr.grpc StatusCode.unknown "down") :=
  ⟨((search_failed_precondition_is_bad_request Nat
      [⟨"a", "==", FValue.val 0⟩] [⟨"a", "EQ", FValue.val 0⟩]
      ⟨some (GoErr.grpc StatusCode.failedPrecondition "fp"), []⟩
      (GoErr.grpc StatusCode.failedPrecondition "fp")
      (by simp) (by simp) rfl).1 rfl).2.1,
    ((search_failed_precondition_is_bad_request Nat
      [⟨"a", "==", FValue.val 0⟩] [⟨"a", "EQ", FValue.val 0⟩]
      ⟨some (GoErr.grpc StatusCode.failedPrecondition "fp"), []⟩
      (GoErr.grpc StatusCode.failedPrecondition "fp")
      (by simp) (by simp) rfl).1 rfl).2.2.2,
    ((search_failed_precondition_is_bad_request Nat
      [⟨"a", "==", FValue.val 0⟩] [⟨"a", "EQ", FValue.val 0⟩]
      ⟨some (GoErr.grpc StatusCode.unknown "down"), []⟩
      (GoErr.grpc StatusCode.unknown "down")
      (by simp) (by simp) rfl).2 (by decide)).2.1⟩

/-- C7: when the backend reports AlreadyExists on create, the rich
variant returns the Conflict kind wrapped around a cause naming the
identity key and the plain variant returns the fixed `already exists`
sentinel; any other backend create error is propagated unnormalized; and
on success the payload handed to the backend create call is exactly the
caller-supplied document. -/
theorem create_conflict_on_already_exists (D : Type) (id : String)
    (document : D) (now : Nat) (e : GoErr) (updateErr : Option GoErr) :
    (statusCode e = StatusCode.alreadyExists →
      CRUDS.Create id document (some e) =
        (some GoErr.errDocumentAlreadyExists, [Call.create id document]) ∧
      DAO.Create id document now (some e) updateErr =
        (some (GoErr.wrap ("(document " ++ quoted id ++ " already exists)")
            EKind.errConflict),
          [Call.create id document])) ∧
    (statusCode e ≠ StatusCode.alreadyExists →
      CRUDS.Create id document (some e) =
        (some e, [Call.create id document]) ∧
      DAO.Create id document now (some e) updateErr =
        (some e, [Call.create id document])) ∧
    ((CRUDS.Create id document none).2.head? =
        some (Call.create id document) ∧
      (DAO.Create id document now none updateErr).2.head? =
        some (Call.create id document)) := by
  refine ⟨fun hc => ⟨?_, ?_⟩, fun hc => ⟨?_, ?_⟩, ?_, ?_⟩ <;>
    first
    | (unfold CRUDS.Create; simp [hc])
    | (unfold DAO.Create; simp [hc])
    | (unfold CRUDS.Create; rfl)
    | (unfold DAO.Create; cases updateErr <;> rfl)

/-- C7 witness: a concrete AlreadyExists response, a concrete unrelated
error, and a successful create. -/
theorem create_conflict_on_already_exists_witness :
    CRUDS.Create "k" (7 : Nat)
        (some (GoErr.grpc StatusCode.alreadyExists "dup")) =
      (some GoErr.errDocumentAlreadyExists, [Call.create "k" 7]) ∧
    (DAO.Create "k" (7 : Nat) 5
        (some (GoErr.grpc StatusCode.alreadyExists "dup")) none).1 =
      some (GoErr.wrap ("(document " ++ quoted "k" ++ " already exists)")
        EKind.errConflict) ∧
    (CRUDS.Create "k" (7 : Nat)
        (some (GoErr.grpc StatusCode.unknown "down"))).1 =
      some (GoErr.grpc StatusCode.unknown "down") ∧
    (CRUDS.Create "k" (7 : Nat) none).2.head? =
      some (Call.create "k" 7) :=
  ⟨((create_conflict_on_already_exists Nat "k" 7 5
      (GoErr.grpc StatusCode.alreadyExists "dup") none).1 rfl).1,
    by
      rw [((create_conflict_on_already_exists Nat "k" 7 5
        (GoErr.grpc StatusCode.alreadyExists "dup") none).1 rfl).2],
    by
      rw [((create_conflict_on_already_exists Nat "k" 7 5
        (GoErr.grpc StatusCode.unknown "down") none).2.1 (by decide)).1],
    (create_conflict_on_already_exists Nat "k" 7 5
      (GoErr.grpc StatusCode.unknown "down") none).2.2.1⟩

/-- C8: when the backend reports no document at the key — a non-nil Get
error together with a snapshot whose existence flag is false — Read
returns the NotFound kind, with the identity key in the cause in the
rich variant, together with the zero/empty Document value. -/
theorem read_missing_key_is_not_found (D : Type) (empty : D) (id : String)
    (e : GoErr) (s : Snapshot D) (hex : s.Exists = false) :
    CRUDS.Read empty ⟨some s, some e⟩ =
      some (empty, some GoErr.errDocumentNotFound) ∧
    DAO.Read empty id ⟨some s, some e⟩ =
      some (empty,
        some (GoErr.wrap ("(ID: " ++ id ++ ")") EKind.errNotFound)) := by
  unfold CRUDS.Read DAO.Read
  simp [hex]

/-- C8 witness: the theorem at a concrete missing-key Get response. -/
theorem read_missing_key_is_not_found_witness :
    ((⟨false, Except.error "missing"⟩ : Snapshot Nat).Exists = false) ∧
    CRUDS.Read 0 ⟨some ⟨false, Except.error "missing"⟩,
        some (GoErr.grpc StatusCode.notFound "rpc")⟩ =
      some (0, some GoErr.errDocumentNotFound) ∧
    DAO.Read 0 "k" ⟨some ⟨false, Except.error "missing"⟩,
        some (GoErr.grpc StatusCode.notFound "rpc")⟩ =
      some (0, some (GoErr.wrap ("(ID: " ++ "k" ++ ")")
        EKind.errNotFound)) :=
  ⟨rfl, read_missing_key_is_not_found Nat 0 "k"
    (GoErr.grpc StatusCode.notFound "rpc")
    ⟨false, Except.error "missing"⟩ rfl⟩

/-- C9: both Update variants return any backend error exactly as the
backend produced it, with no translation into the normalized taxonomy;
in particular a backend error — whatever its status code, not-found
included — is never the NotFound kind of either variant. -/
theorem update_propagates_backend_error_verbatim (D : Type) (id : String)
    (updates : List FirestoreUpdate) (u : TUpdate) (now : Nat) (e : GoErr)
    (hbe : isBackendErr e) :
    (CRUDS.Update (D := D) id updates (some e)).1 = some e ∧
    (DAO.Update (D := D) id u now (some e)).1 = some e ∧
    isNotFoundErr e = false := by
  refine ⟨rfl, rfl, ?_⟩
  cases e <;> simp [isNotFoundErr] <;> exact hbe.elim

/-- C9 witness: the theorem at the backend's own not-found error: it is
returned verbatim and is not the accessor's NotFound kind. -/
theorem update_propagates_backend_error_verbatim_witness :
    isBackendErr (GoErr.grpc StatusCode.notFound "rpc") ∧
    ((CRUDS.Update (D := Nat) "k" []
        (some (GoErr.grpc StatusCode.notFound "rpc"))).1 =
      some (GoErr.grpc StatusCode.notFound "rpc") ∧
    (DAO.Update (D := Nat) "k" ([] : TUpdate) 5
        (some (GoErr.grpc StatusCode.notFound "rpc"))).1 =
      some (GoErr.grpc StatusCode.notFound "rpc") ∧
    isNotFoundErr (GoErr.grpc StatusCode.notFound "rpc") = false) :=
  ⟨trivial, update_propagates_backend_error_verbatim Nat "k" []
    ([] : TUpdate) 5 (GoErr.grpc StatusCode.notFound "rpc") trivial⟩

/-- C10: in both variants, when Get returns an error the code asks the
snapshot for its existence flag before looking at the error, so a nil
snapshot alongside an error is a nil-pointer dereference; with a non-nil
snapshot the branch always produces a result, and it is the NotFound
kind exactly when the existence flag is false — independent of the
backend error's status code. -/
theorem read_error_branch_asks_exists_first (D : Type) (empty : D)
    (id : String) (e : GoErr) (hbe : isBackendErr e) :
    (CRUDS.Read empty ⟨none, some e⟩ = none ∧
      DAO.Read empty id ⟨none, some e⟩ = none) ∧
    (∀ s : Snapshot D,
      ((CRUDS.Read empty ⟨some s, some e⟩).isSome ∧
        (DAO.Read empty id ⟨some s, some e⟩).isSome) ∧
      (CRUDS.Read empty ⟨some s, some e⟩ =
          some (empty, some GoErr.errDocumentNotFound) ↔
        s.Exists = false) ∧
      (DAO.Read empty id ⟨some s, some e⟩ =
          some (empty,
            some (GoErr.wrap ("(ID: " ++ id ++ ")") EKind.errNotFound)) ↔
        s.Exists = false)) := by
  refine ⟨⟨rfl, rfl⟩, fun s => ⟨⟨?_, ?_⟩, ?_, ?_⟩⟩ <;>
    · cases hx : s.Exists <;> cases e <;>
        simp_all [CRUDS.Read, DAO.Read, isBackendErr]

/-- C10 witness: a nil snapshot with an error dereferences; a non-nil
existing snapshot with a not-found status code is not classified
NotFound, because the flag, not the code, decides. -/
theorem read_error_branch_asks_exists_first_witness :
    isBackendErr (GoErr.grpc StatusCode.notFound "rpc") ∧
    CRUDS.Read (D := Nat) 0
        ⟨none, some (GoErr.grpc StatusCode.notFound "rpc")⟩ = none ∧
    ¬(CRUDS.Read (D := Nat) 0
        ⟨some ⟨true, Except.ok 7⟩,
          some (GoErr.grpc StatusCode.notFound "rpc")⟩ =
      some (0, some GoErr.errDocumentNotFound)) :=
  ⟨trivial,
    (read_error_branch_asks_exists_first Nat 0 "k"
      (GoErr.grpc StatusCode.notFound "rpc") trivial).1.1,
    fun h =>
      by simpa using ((read_error_branch_asks_exists_first Nat 0 "k"
        (GoErr.grpc StatusCode.notFound "rpc") trivial).2
        ⟨true, Except.ok 7⟩).2.1.mp h⟩
